import Mathlib

/-!
Verification of the data-ingestion core of the lexcura-dashboard repository
(src/google_sheets_503b.py), as a shallow embedding in Lean 4.

Modelling conventions:
* Python floats are modelled as exact rationals plus the special values
  inf, -inf and nan (`PyFloat`).  Binary-rounding of finite decimal
  literals is not modelled (values stay exact); overflow of the string
  parser to infinity is modelled at the IEEE double bound 2^1024.
* Exceptions are modelled with `Except`: a function that can let a Python
  exception escape returns `Except PyErr _`; a raised-and-caught exception
  never surfaces.
* The pseudo-random generator (CPython Mersenne Twister behind the module
  level `random`) is abstracted as a function `gen : Nat -> Nat -> Rat`
  sending a seed to the infinite stream of `random.random()` draws; the
  global generator state is an explicit `RandomState` threaded through the
  code.  All theorems quantify over `gen`, hence hold for every draw
  sequence.
* `src/google_sheets_503b.py` contains two complete class definitions of
  `Master503BConnector` (lines 1-346 and 346-656); the second shadows the
  first at import time.  Definitions from the second copy carry a `_v2`
  suffix.
-/

/-- Python float special values: a finite rational, +inf, -inf, or nan. -/
inductive PyFloat where
  | finite (q : ℚ)
  | inf
  | negInf
  | nan
deriving DecidableEq

/-- Python exceptions that matter to this code. -/
inductive PyErr where
  | valueError
  | overflowError
deriving DecidableEq

/-- Python comparison `a < b` on floats; any comparison with nan is false. -/
def pyLt : PyFloat → PyFloat → Bool
  | .finite a, .finite b => a < b
  | .finite _, .inf => true
  | .negInf, .finite _ => true
  | .negInf, .inf => true
  | _, _ => false

/-- Python comparison `a <= b` on floats; any comparison with nan is false. -/
def pyLe : PyFloat → PyFloat → Bool
  | .nan, _ => false
  | _, .nan => false
  | .negInf, _ => true
  | _, .inf => true
  | .inf, _ => false
  | .finite _, .negInf => false
  | .finite a, .finite b => a ≤ b

/-- Python float addition with the usual special-value rules. -/
def pyAdd : PyFloat → PyFloat → PyFloat
  | .finite a, .finite b => .finite (a + b)
  | .nan, _ => .nan
  | _, .nan => .nan
  | .inf, .negInf => .nan
  | .negInf, .inf => .nan
  | .inf, _ => .inf
  | _, .inf => .inf
  | .negInf, _ => .negInf
  | _, .negInf => .negInf

/-- Python float multiplication with the usual special-value rules. -/
def pyMul : PyFloat → PyFloat → PyFloat
  | .finite a, .finite b => .finite (a * b)
  | .nan, _ => .nan
  | _, .nan => .nan
  | .inf, .inf => .inf
  | .inf, .negInf => .negInf
  | .negInf, .inf => .negInf
  | .negInf, .negInf => .inf
  | .inf, .finite b => if 0 < b then .inf else if b < 0 then .negInf else .nan
  | .negInf, .finite b => if 0 < b then .negInf else if b < 0 then .inf else .nan
  | .finite a, .inf => if 0 < a then .inf else if a < 0 then .negInf else .nan
  | .finite a, .negInf => if 0 < a then .negInf else if a < 0 then .inf else .nan

/-- Python float negation. -/
def pyNeg : PyFloat → PyFloat
  | .finite a => .finite (-a)
  | .inf => .negInf
  | .negInf => .inf
  | .nan => .nan

/-- Python float subtraction. -/
def pySub (a b : PyFloat) : PyFloat := pyAdd a (pyNeg b)

/-- Python `min(a, b)`: keeps `a` unless `b < a` (so `min(x, nan) = x`). -/
def pyMin (a b : PyFloat) : PyFloat := if pyLt b a then b else a

/-- Python `max(a, b)`: keeps `a` unless `a < b` (so `max(x, nan) = x`). -/
def pyMax (a b : PyFloat) : PyFloat := if pyLt a b then b else a

/-- Truncation toward zero, the semantics of Python `int(float)` on a
finite value (`Int` division in Lean truncates toward zero). -/
def ratTrunc (q : ℚ) : ℤ := q.num / (q.den : ℤ)

/-- Python `int(x)` on a float: nan raises ValueError, an infinity raises
OverflowError, finite values truncate toward zero. -/
def pyIntOfFloat : PyFloat → Except PyErr ℤ
  | .finite q => .ok (ratTrunc q)
  | .nan => .error .valueError
  | .inf => .error .overflowError
  | .negInf => .error .overflowError

/-- The whitespace characters stripped by Python `float(str)`. -/
def pyWhitespace : List Char := [' ', '\t', '\n', '\r', '\x0b', '\x0c']

/-- Drop leading Python whitespace. -/
def dropSpaces (cs : List Char) : List Char :=
  cs.dropWhile (fun c => c ∈ pyWhitespace)

/-- Strip Python whitespace from both ends. -/
def pyStrip (cs : List Char) : List Char :=
  ((dropSpaces cs).reverse |> dropSpaces).reverse

/-- Decimal digits to a natural number. -/
def natOfDigits (cs : List Char) : ℕ :=
  cs.foldl (fun n c => 10 * n + (c.toNat - 48)) 0

/-- The exponent part of a float literal: optional sign, then digits. -/
def parseExp : List Char → Option ℤ
  | '+' :: r =>
    if r ≠ [] ∧ r.all Char.isDigit then some (natOfDigits r : ℤ) else none
  | '-' :: r =>
    if r ≠ [] ∧ r.all Char.isDigit then some (-(natOfDigits r : ℤ)) else none
  | r =>
    if r ≠ [] ∧ r.all Char.isDigit then some (natOfDigits r : ℤ) else none

/-- An unsigned decimal float literal (already lowercased):
`digits [. digits] [e exponent]`, at least one digit in the mantissa.
The value is kept as an exact rational. -/
def parseUnsigned (cs : List Char) : Option ℚ :=
  let ip := cs.takeWhile Char.isDigit
  let rest := cs.dropWhile Char.isDigit
  match rest with
  | [] => if ip.isEmpty then none else some ((natOfDigits ip : ℚ))
  | '.' :: r2 =>
    let fp := r2.takeWhile Char.isDigit
    let r3 := r2.dropWhile Char.isDigit
    if ip.isEmpty ∧ fp.isEmpty then none
    else
      let base : ℚ := (natOfDigits ip : ℚ) + (natOfDigits fp : ℚ) / (10 : ℚ) ^ fp.length
      match r3 with
      | [] => some base
      | 'e' :: r4 => (parseExp r4).map (fun k => base * (10 : ℚ) ^ k)
      | _ => none
  | 'e' :: r4 =>
    if ip.isEmpty then none
    else (parseExp r4).map (fun k => (natOfDigits ip : ℚ) * (10 : ℚ) ^ k)
  | _ => none

/-- Smallest magnitude that overflows an IEEE double. -/
def doubleOverflow : ℚ := ((2 ^ 1024 : ℕ) : ℚ)

/-- Python `float(s)` on a string: strip whitespace, optional sign,
`inf`/`infinity`/`nan` (case-insensitive) or a decimal literal; `none`
models ValueError.  Magnitudes at or above 2^1024 overflow to infinity
(rounding very close to that bound, digit-separating underscores, and
gradual underflow are not modelled). -/
def pyFloatOfString (s : String) : Option PyFloat :=
  let cs := (pyStrip s.data).map Char.toLower
  let signed : Bool × List Char :=
    match cs with
    | '+' :: r => (false, r)
    | '-' :: r => (true, r)
    | r => (false, r)
  let neg := signed.1
  let body := signed.2
  if body = ['i', 'n', 'f'] ∨ body = ['i', 'n', 'f', 'i', 'n', 'i', 't', 'y'] then
    some (if neg then .negInf else .inf)
  else if body = ['n', 'a', 'n'] then some .nan
  else
    match parseUnsigned body with
    | none => none
    | some q0 =>
      let q : ℚ := if neg then -q0 else q0
      if doubleOverflow ≤ |q| then some (if neg then .negInf else .inf)
      else some (.finite q)

/-- `str(cell).replace(",", "")`: remove every comma. -/
def stripCommas (s : String) : String := ⟨s.data.filter (· ≠ ',')⟩

/-- `Master503BConnector._safe_int` (src/google_sheets_503b.py:117-124):
`int(float(str(cell).replace(",", "")))` guarded by
`if index < len(row_data) and row_data[index]`, with
`except (ValueError, TypeError): return 0`.  A ValueError (from `float`
on a bad string or from `int` on nan) is caught and yields 0; the
OverflowError from `int` on an infinite float is NOT in the except tuple
and escapes, modelled as `.error`. -/
def safe_int (row_data : List String) (index : ℕ) : Except PyErr ℤ :=
  match row_data.get? index with
  | none => .ok 0
  | some cell =>
    if cell = "" then .ok 0
    else
      match pyFloatOfString (stripCommas cell) with
      | none => .ok 0
      | some f =>
        match pyIntOfFloat f with
        | .ok n => .ok n
        | .error .valueError => .ok 0
        | .error e => .error e

/-- `Master503BConnector._safe_float` (src/google_sheets_503b.py:126-133):
`float(str(cell).replace(",", ""))` with the same guard; `float` raises
only ValueError on strings, which is caught, so this never raises. -/
def safe_float (row_data : List String) (index : ℕ) : PyFloat :=
  match row_data.get? index with
  | none => .finite 0
  | some cell =>
    if cell = "" then .finite 0
    else (pyFloatOfString (stripCommas cell)).getD (.finite 0)

/-- The `production` group of the mapped snapshot (first class definition). -/
structure Production where
  total_batches : ℤ
  completed_batches : ℤ
  pending_batches : ℤ
  average_yield : PyFloat
  daily_target : ℤ
  monthly_production : ℤ
deriving DecidableEq

/-- The `quality` group of the mapped snapshot. -/
structure Quality where
  pass_rate : PyFloat
  total_tests : ℤ
  failed_tests : ℤ
  sterility_results : PyFloat
  endotoxin_level : PyFloat
  ph_measurements : PyFloat
  particulate_count : ℤ
  potency_average : PyFloat
deriving DecidableEq

/-- The `compliance` group of the mapped snapshot. -/
structure Compliance where
  total_deviations : ℤ
  critical_deviations : ℤ
  capa_open : ℤ
  audit_findings : ℤ
  training_compliance : PyFloat
  environmental_excursions : ℤ
deriving DecidableEq

/-- The `inventory` group of the mapped snapshot. -/
structure Inventory where
  total_sku : ℤ
  low_stock_items : ℤ
  expired_materials : ℤ
deriving DecidableEq

/-- The normalized snapshot built by `_map_columns_to_metrics`
(first class definition, src/google_sheets_503b.py:73-115). -/
structure RawSnapshot where
  production : Production
  quality : Quality
  compliance : Compliance
  inventory : Inventory
deriving DecidableEq

/-- `Master503BConnector._get_fallback_structure`
(src/google_sheets_503b.py:269-303). -/
def fallback_structure : RawSnapshot :=
  { production :=
      { total_batches := 147, completed_batches := 132, pending_batches := 15
        average_yield := .finite (963 / 10), daily_target := 20
        monthly_production := 600 }
    quality :=
      { pass_rate := .finite (982 / 10), total_tests := 1247, failed_tests := 23
        sterility_results := .finite 100, endotoxin_level := .finite (2 / 100)
        ph_measurements := .finite (71 / 10), particulate_count := 12
        potency_average := .finite (1021 / 10) }
    compliance :=
      { total_deviations := 8, critical_deviations := 1, capa_open := 3
        audit_findings := 2, training_compliance := .finite (947 / 10)
        environmental_excursions := 1 }
    inventory :=
      { total_sku := 156, low_stock_items := 12, expired_materials := 3 } }

/-- The try-block of `_map_columns_to_metrics`
(src/google_sheets_503b.py:79-112): the dict literal, evaluated in source
order; an escaping exception from `_safe_int` aborts the whole literal. -/
def map_columns_body (row_data : List String) : Except PyErr RawSnapshot := do
  let total_batches ← safe_int row_data 0
  let completed_batches ← safe_int row_data 1
  let pending_batches ← safe_int row_data 2
  let average_yield := safe_float row_data 3
  let daily_target ← safe_int row_data 4
  let monthly_production ← safe_int row_data 5
  let pass_rate := safe_float row_data 6
  let total_tests ← safe_int row_data 7
  let failed_tests ← safe_int row_data 8
  let sterility_results := safe_float row_data 9
  let endotoxin_level := safe_float row_data 10
  let ph_measurements := safe_float row_data 11
  let particulate_count ← safe_int row_data 12
  let potency_average := safe_float row_data 13
  let total_deviations ← safe_int row_data 14
  let critical_deviations ← safe_int row_data 15
  let capa_open ← safe_int row_data 16
  let audit_findings ← safe_int row_data 17
  let training_compliance := safe_float row_data 18
  let environmental_excursions ← safe_int row_data 19
  let total_sku ← safe_int row_data 20
  let low_stock_items ← safe_int row_data 21
  let expired_materials ← safe_int row_data 22
  return {
      production :=
        { total_batches, completed_batches, pending_batches, average_yield
          daily_target, monthly_production }
      quality :=
        { pass_rate, total_tests, failed_tests, sterility_results
          endotoxin_level, ph_measurements, particulate_count, potency_average }
      compliance :=
        { total_deviations, critical_deviations, capa_open, audit_findings
          training_compliance, environmental_excursions }
      inventory := { total_sku, low_stock_items, expired_materials } }

/-- `Master503BConnector._map_columns_to_metrics`
(src/google_sheets_503b.py:73-115): the try-block above, with
`except Exception: return self._get_fallback_structure()` catching every
escaping exception, so the method itself is total. -/
def map_columns_to_metrics (row_data : List String) : RawSnapshot :=
  match map_columns_body row_data with
  | .ok s => s
  | .error _ => fallback_structure

/-- The state of the module-level `random` generator.  `stream` is the
infinite sequence of `random.random()` draws the generator will produce
from its last seeding, `pos` the number of draws already consumed. -/
structure RandomState where
  stream : ℕ → ℚ
  pos : ℕ

/-- `random.seed(n)`: the generator family `gen` (the abstracted Mersenne
Twister) maps the seed to a fresh draw stream; the previous state is
discarded. -/
def pySeed (gen : ℕ → ℕ → ℚ) (n : ℕ) : RandomState := ⟨gen n, 0⟩

/-- `random.random()`: take the next draw. -/
def pyRandom (r : RandomState) : ℚ × RandomState :=
  (r.stream r.pos, ⟨r.stream, r.pos + 1⟩)

/-- `random.uniform(a, b) = a + (b - a) * random.random()`. -/
def pyUniform (a b : ℚ) (r : RandomState) : ℚ × RandomState :=
  let u := pyRandom r
  (a + (b - a) * u.1, u.2)

/-- One row of the synthesized production trend:
`{"day": ..., "batches": ..., "yield": ...}`. -/
structure TrendEntry where
  day : String
  batches : ℤ
  yieldPct : PyFloat
deriving DecidableEq

/-- The day label `f"Day -{6-i}" if i < 6 else "Today"` (the second class
definition computes `f"Day {i-6}"`, producing the same strings). -/
def dayName (i : ℕ) : String :=
  if i < 6 then "Day -" ++ toString (6 - i) else "Today"

/-- The loop body of `_generate_production_trend` (first class definition,
src/google_sheets_503b.py:197-207), iterated over the remaining day
indices: draws `uniform(0.7, 1.3)` and `uniform(-3, 3)`, floors the batch
count at 1 and clamps the yield into `[85, 100]` via
`max(85, min(100, ...))`. -/
def prodTrendLoop (base_daily : ℤ) (base_yield : PyFloat) :
    List ℕ → RandomState → List TrendEntry × RandomState
  | [], r => ([], r)
  | i :: is, r =>
    let dv := pyUniform (7 / 10) (13 / 10) r
    let yv := pyUniform (-3) 3 dv.2
    let entry : TrendEntry :=
      { day := dayName i
        batches := max 1 (ratTrunc ((base_daily : ℚ) * dv.1))
        yieldPct := pyMax (.finite 85) (pyMin (.finite 100) (pyAdd base_yield (.finite yv.1))) }
    let rest := prodTrendLoop base_daily base_yield is yv.2
    (entry :: rest.1, rest.2)

/-- `Master503BConnector._generate_production_trend` (first class
definition, src/google_sheets_503b.py:189-209): reseeds the global
generator with 42, estimates `base_daily = max(1, total_batches // 30)`
(Python floor division) and synthesizes 7 entries. -/
def generate_production_trend (gen : ℕ → ℕ → ℚ) (raw : RawSnapshot)
    (_r0 : RandomState) : List TrendEntry × RandomState :=
  let r := pySeed gen 42
  let base_daily : ℤ := max 1 (Int.fdiv raw.production.total_batches 30)
  prodTrendLoop base_daily raw.production.average_yield (List.range 7) r

/-- One `{"parameter": ..., "value": ...}` row of the quality radar. -/
structure QualityParam where
  parameter : String
  value : PyFloat
deriving DecidableEq

/-- `Master503BConnector._generate_quality_radar_data`
(src/google_sheets_503b.py:211-220). -/
def generate_quality_radar_data (raw : RawSnapshot) : List QualityParam :=
  [ { parameter := "Sterility Assurance"
      value := pyMin (.finite 100) raw.quality.sterility_results }
  , { parameter := "Endotoxin Control"
      value := pyMax (.finite 0)
        (pySub (.finite 100) (pyMul raw.quality.endotoxin_level (.finite 50))) }
  , { parameter := "pH Compliance", value := .finite 95 }
  , { parameter := "Particulate Control"
      value := pyMax (.finite 0)
        (pySub (.finite 100) (.finite ((raw.quality.particulate_count : ℚ) / 100))) }
  , { parameter := "Potency Assurance"
      value := pyMin (.finite 105) raw.quality.potency_average } ]

/-- One environmental zone row (first class definition: no temperature or
humidity fields). -/
structure EnvZone where
  zone : String
  particles : ℤ
  status : String
deriving DecidableEq

/-- `Master503BConnector._generate_environmental_data` (first class
definition, src/google_sheets_503b.py:222-228): a constant list. -/
def generate_environmental_data (_raw : RawSnapshot) : List EnvZone :=
  [ { zone := "ISO 5", particles := 145, status := "Compliant" }
  , { zone := "ISO 7", particles := 2840, status := "Compliant" }
  , { zone := "ISO 8", particles := 89500, status := "Alert" } ]

/-- The dict returned by `_generate_deviation_trend`. -/
structure DevAnalysis where
  trend : List ℤ
  total : ℤ
  critical : ℤ
deriving DecidableEq

/-- The `for i in range(7)` loop of `_generate_deviation_trend`
(src/google_sheets_503b.py:240-246), by countdown on the remaining
iterations: with one iteration left (`i == 6`) the last day receives the
whole remainder; otherwise the day receives
`min(remaining, max(0, int(uniform(0, total/3))))` and the remainder
shrinks by that amount. -/
def devTrendLoop (total : ℤ) : ℕ → ℤ → RandomState → List ℤ × RandomState
  | 0, _, r => ([], r)
  | 1, remaining, r => ([remaining], r)
  | n + 2, remaining, r =>
    let u := pyUniform 0 ((total : ℚ) / 3) r
    let daily := min remaining (max 0 (ratTrunc u.1))
    let rest := devTrendLoop total (n + 1) (remaining - daily) u.2
    (daily :: rest.1, rest.2)

/-- `Master503BConnector._generate_deviation_trend`
(src/google_sheets_503b.py:230-252): reseeds with 42 and distributes
`total_deviations` over 7 days, the last day taking the exact remainder. -/
def generate_deviation_trend (gen : ℕ → ℕ → ℚ) (raw : RawSnapshot)
    (_r0 : RandomState) : DevAnalysis × RandomState :=
  let r := pySeed gen 42
  let total := raw.compliance.total_deviations
  let res := devTrendLoop total 7 total r
  ({ trend := res.1, total := total, critical := raw.compliance.critical_deviations }, res.2)

/-- The `status_breakdown` dict of `_generate_inventory_breakdown`. -/
structure InventoryBreakdown where
  good : ℤ
  low_stock : ℤ
  critical : ℤ
deriving DecidableEq

/-- `Master503BConnector._generate_inventory_breakdown`
(src/google_sheets_503b.py:254-267). -/
def generate_inventory_breakdown (raw : RawSnapshot) : InventoryBreakdown :=
  let total_items := raw.inventory.total_sku
  let low_stock := raw.inventory.low_stock_items
  let expired := raw.inventory.expired_materials
  { good := max 0 (total_items - low_stock - expired)
    low_stock := low_stock
    critical := expired }

/-- KPI status labels. -/
inductive Status where
  | good
  | warning
  | critical
deriving DecidableEq

/-- Quality order on statuses: critical < warning < good. -/
def statusRank : Status → ℕ
  | .critical => 0
  | .warning => 1
  | .good => 2

/-- `quality_status = "good" if pass_rate >= 95 else "warning"`
(src/google_sheets_503b.py:148). -/
def quality_status (pass_rate : PyFloat) : Status :=
  if pyLe (.finite 95) pass_rate then .good else .warning

/-- `deviation_status = "good" if total_deviations <= 2 else "critical"`
(src/google_sheets_503b.py:149). -/
def deviation_status (total_deviations : ℤ) : Status :=
  if total_deviations ≤ 2 then .good else .critical

/-- `inventory_status = "warning" if low_stock_items > 10 else "good"`
(src/google_sheets_503b.py:150). -/
def inventory_status (low_stock_items : ℤ) : Status :=
  if 10 < low_stock_items then .warning else .good

/-- The compliance-score status
`"warning" if total_deviations > 3 else "good"`
(src/google_sheets_503b.py:167). -/
def compliance_score_status (total_deviations : ℤ) : Status :=
  if 3 < total_deviations then .warning else .good

/-- One KPI cell `{"value": ..., "change": ..., "status": ...}`.  Values
that are Python ints in the code are modelled as the same finite float. -/
structure KPI where
  value : PyFloat
  change : ℚ
  status : Status
deriving DecidableEq

/-- The five KPI cells of the dashboard dict. -/
structure KPIs where
  total_batches : KPI
  quality_pass_rate : KPI
  compliance_score : KPI
  active_deviations : KPI
  inventory_alerts : KPI
deriving DecidableEq

/-- The `charts` part of the dashboard dict (first class definition). -/
structure Charts where
  production_trend : List TrendEntry
  quality_parameters : List QualityParam
  environmental_zones : List EnvZone
  deviation_analysis : DevAnalysis
  inventory_status : InventoryBreakdown
deriving DecidableEq

/-- The dashboard dict returned by `_format_dashboard_data` and
`_get_fallback_dashboard_data`. -/
structure Dashboard where
  kpis : KPIs
  charts : Charts
deriving DecidableEq

/-- `Master503BConnector._format_dashboard_data`
(src/google_sheets_503b.py:144-187).  The chart generators that consume
the global random generator run in source order (production trend first,
deviation trend second), threading the generator state. -/
def format_dashboard_data (gen : ℕ → ℕ → ℚ) (raw : RawSnapshot)
    (r0 : RandomState) : Dashboard × RandomState :=
  let kpis : KPIs :=
    { total_batches :=
        { value := .finite (raw.production.total_batches : ℚ)
          change := 83 / 10, status := .good }
      quality_pass_rate :=
        { value := raw.quality.pass_rate
          change := 21 / 10, status := quality_status raw.quality.pass_rate }
      compliance_score :=
        { value := .finite ((100 - raw.compliance.total_deviations * 2 : ℤ) : ℚ)
          change := -12 / 10
          status := compliance_score_status raw.compliance.total_deviations }
      active_deviations :=
        { value := .finite (raw.compliance.total_deviations : ℚ)
          change := -25
          status := deviation_status raw.compliance.total_deviations }
      inventory_alerts :=
        { value := .finite ((raw.inventory.low_stock_items + raw.inventory.expired_materials : ℤ) : ℚ)
          change := 152 / 10
          status := inventory_status raw.inventory.low_stock_items } }
  let pt := generate_production_trend gen raw r0
  let da := generate_deviation_trend gen raw pt.2
  ( { kpis := kpis
      charts :=
        { production_trend := pt.1
          quality_parameters := generate_quality_radar_data raw
          environmental_zones := generate_environmental_data raw
          deviation_analysis := da.1
          inventory_status := generate_inventory_breakdown raw } }
  , da.2 )

/-- `Master503BConnector._get_fallback_dashboard_data`
(src/google_sheets_503b.py:305-346): the constant dashboard served when
`get_master_data` returns None. -/
def fallback_dashboard_data : Dashboard :=
  { kpis :=
      { total_batches := { value := .finite 147, change := 83 / 10, status := .good }
        quality_pass_rate := { value := .finite (982 / 10), change := 21 / 10, status := .good }
        compliance_score := { value := .finite (943 / 10), change := -12 / 10, status := .warning }
        active_deviations := { value := .finite 8, change := -25, status := .warning }
        inventory_alerts := { value := .finite 15, change := 152 / 10, status := .warning } }
    charts :=
      { production_trend :=
          [ { day := "Day -6", batches := 18, yieldPct := .finite (961 / 10) }
          , { day := "Day -5", batches := 22, yieldPct := .finite (972 / 10) }
          , { day := "Day -4", batches := 19, yieldPct := .finite (958 / 10) }
          , { day := "Day -3", batches := 25, yieldPct := .finite (981 / 10) }
          , { day := "Day -2", batches := 21, yieldPct := .finite (967 / 10) }
          , { day := "Day -1", batches := 17, yieldPct := .finite (949 / 10) }
          , { day := "Today", batches := 23, yieldPct := .finite (975 / 10) } ]
        quality_parameters :=
          [ { parameter := "Sterility Assurance", value := .finite 100 }
          , { parameter := "Endotoxin Control", value := .finite 99 }
          , { parameter := "pH Compliance", value := .finite 95 }
          , { parameter := "Particulate Control", value := .finite 88 }
          , { parameter := "Potency Assurance", value := .finite 102 } ]
        environmental_zones :=
          [ { zone := "ISO 5", particles := 145, status := "Compliant" }
          , { zone := "ISO 7", particles := 2840, status := "Compliant" }
          , { zone := "ISO 8", particles := 89500, status := "Alert" } ]
        deviation_analysis := { trend := [2, 1, 3, 0, 1, 0, 1], total := 8, critical := 1 }
        inventory_status := { good := 141, low_stock := 12, critical := 3 } } }

/-- `Master503BConnector.get_dashboard_data`
(src/google_sheets_503b.py:135-142).  The outcome of the network fetch
`get_master_data` is passed as a parameter: `some raw` is a successful
fetch already mapped to a snapshot, `none` is any failure path (the
method catches its exceptions and returns None).  The object keeps no
snapshot cache, so this is the whole read path. -/
def get_dashboard_data (gen : ℕ → ℕ → ℚ) (fetched : Option RawSnapshot)
    (r0 : RandomState) : Dashboard × RandomState :=
  match fetched with
  | some raw => format_dashboard_data gen raw r0
  | none => (fallback_dashboard_data, r0)

/-- A sequence of dashboard reads, one per fetch outcome, threading the
global generator state; models repeated calls of `get_dashboard_data` on
the same connector object. -/
def runReads (gen : ℕ → ℕ → ℚ) :
    List (Option RawSnapshot) → RandomState → List Dashboard
  | [], _ => []
  | f :: fs, r =>
    let d := get_dashboard_data gen f r
    d.1 :: runReads gen fs d.2

/-- `production_metrics` of the second class definition
(src/google_sheets_503b.py:413-420): every field comes from the
three-argument `_safe_float`, hence is a float. -/
structure ProductionMetricsV2 where
  total_batches : PyFloat
  completed_batches : PyFloat
  pending_batches : PyFloat
  average_yield : PyFloat
  daily_production : PyFloat
  monthly_target : PyFloat
deriving DecidableEq

/-- `quality_metrics` of the second class definition (lines 421-430). -/
structure QualityMetricsV2 where
  pass_rate : PyFloat
  total_tests : PyFloat
  pending_tests : PyFloat
  sterility_pass : PyFloat
  endotoxin_level : PyFloat
  ph_average : PyFloat
  particulate_count : PyFloat
  potency_average : PyFloat
deriving DecidableEq

/-- `compliance_metrics` of the second class definition (lines 431-438). -/
structure ComplianceMetricsV2 where
  deviation_count : PyFloat
  critical_deviations : PyFloat
  environmental_alerts : PyFloat
  training_compliance : PyFloat
  audit_score : PyFloat
  capa_open : PyFloat
deriving DecidableEq

/-- `inventory_metrics` of the second class definition (lines 439-445). -/
structure InventoryMetricsV2 where
  total_items : PyFloat
  low_stock_alerts : PyFloat
  expired_items : PyFloat
  critical_supplies : PyFloat
  raw_material_value : PyFloat
deriving DecidableEq

/-- `environmental_data` of the second class definition (lines 446-452). -/
structure EnvironmentalDataV2 where
  iso5_particles : PyFloat
  iso7_particles : PyFloat
  iso8_particles : PyFloat
  temperature_avg : PyFloat
  humidity_avg : PyFloat
deriving DecidableEq

/-- The `parsed_data` snapshot of the second class definition
(src/google_sheets_503b.py:412-453). -/
structure RawSnapshotV2 where
  production_metrics : ProductionMetricsV2
  quality_metrics : QualityMetricsV2
  compliance_metrics : ComplianceMetricsV2
  inventory_metrics : InventoryMetricsV2
  environmental_data : EnvironmentalDataV2
deriving DecidableEq

/-- The loop body of `_generate_production_trend` in the second class
definition (src/google_sheets_503b.py:527-536):
`daily_batches = int(base_daily * (0.8 + random.random() * 0.4))` with
NO floor at 1 (and a possible OverflowError from `int` if `base_daily`
is infinite), then `yield_pct = average_yield + uniform(-3, 3)` clamped
by `max(85, min(100, ...))`. -/
def prodTrendLoopV2 (base_daily base_yield : PyFloat) :
    List ℕ → RandomState → Except PyErr (List TrendEntry × RandomState)
  | [], r => .ok ([], r)
  | i :: is, r =>
    let u := pyRandom r
    match pyIntOfFloat (pyMul base_daily (.finite (4 / 5 + u.1 * (2 / 5)))) with
    | .error e => .error e
    | .ok daily_batches =>
      let yv := pyUniform (-3) 3 u.2
      let entry : TrendEntry :=
        { day := dayName i
          batches := daily_batches
          yieldPct := pyMax (.finite 85) (pyMin (.finite 100) (pyAdd base_yield (.finite yv.1))) }
      match prodTrendLoopV2 base_daily base_yield is yv.2 with
      | .error e => .error e
      | .ok rest => .ok (entry :: rest.1, rest.2)

/-- `Master503BConnector._generate_production_trend` in the second
(shadowing) class definition (src/google_sheets_503b.py:519-537):
reseeds with 42, uses `daily_production` as the base and does not floor
the batch count. -/
def generate_production_trend_v2 (gen : ℕ → ℕ → ℚ) (raw : RawSnapshotV2)
    (_r0 : RandomState) : Except PyErr (List TrendEntry × RandomState) :=
  let r := pySeed gen 42
  prodTrendLoopV2 raw.production_metrics.daily_production
    raw.production_metrics.average_yield (List.range 7) r

/-- Modelled from the spec: no code under src computes a compliance
percentage (the environmental generators at
src/google_sheets_503b.py:222-228 and 549-573 emit only particle counts
and a threshold status string); the spec data model (§3) defines
`compliancePercent = clamp(100 - particleCount/particleLimit*100, 0, 100)`
for a ComplianceZone, embedded here from those words. -/
def compliancePercent (particleCount particleLimit : ℚ) : ℚ :=
  max 0 (min 100 (100 - particleCount / particleLimit * 100))

/-- Column indices of the int-typed schema fields of
`_map_columns_to_metrics` (first class definition). -/
def intFieldIndices : List ℕ := [0, 1, 2, 4, 5, 7, 8, 12, 14, 15, 16, 17, 19, 20, 21, 22]

/-- Column indices of the float-typed schema fields. -/
def floatFieldIndices : List ℕ := [3, 6, 9, 10, 11, 13, 18]

/-- Following the words of the spec (§4.2), for comparison with the
code: a field counts as defaulted when its index is out of range, its
cell is empty, or the cell fails to parse as the declared type. -/
def fieldDefaulted (row : List String) (index : ℕ) (isInt : Bool) : Bool :=
  match row.get? index with
  | none => true
  | some cell =>
    if cell = "" then true
    else
      match pyFloatOfString (stripCommas cell) with
      | none => true
      | some f =>
        if isInt then
          match pyIntOfFloat f with
          | .ok _ => false
          | .error _ => true
        else false

/-- Following the words of the spec (§4.2): the number of schema fields
set to their default by the mapping of `row`. -/
def specDefaultedFieldCount (row : List String) : ℕ :=
  intFieldIndices.countP (fun i => fieldDefaulted row i true) +
    floatFieldIndices.countP (fun i => fieldDefaulted row i false)

/-- A concrete draw stream: the generator that always draws 0 (a legal
value of `random.random()`, whose range is `[0, 1)`). -/
def gen0 : ℕ → ℕ → ℚ := fun _ _ => 0

/-- A concrete incoming generator state. -/
def rs0 : RandomState := ⟨fun _ => 0, 0⟩

/-- A concrete second-copy snapshot whose `daily_production` is 0
(reachable: a "0" cell parses to 0.0 in `_safe_float`). -/
def snapshot2zero : RawSnapshotV2 :=
  { production_metrics :=
      { total_batches := .finite 0, completed_batches := .finite 0
        pending_batches := .finite 0, average_yield := .finite 0
        daily_production := .finite 0, monthly_target := .finite 0 }
    quality_metrics :=
      { pass_rate := .finite 0, total_tests := .finite 0
        pending_tests := .finite 0, sterility_pass := .finite 0
        endotoxin_level := .finite 0, ph_average := .finite 0
        particulate_count := .finite 0, potency_average := .finite 0 }
    compliance_metrics :=
      { deviation_count := .finite 0, critical_deviations := .finite 0
        environmental_alerts := .finite 0, training_compliance := .finite 0
        audit_score := .finite 0, capa_open := .finite 0 }
    inventory_metrics :=
      { total_items := .finite 0, low_stock_alerts := .finite 0
        expired_items := .finite 0, critical_supplies := .finite 0
        raw_material_value := .finite 0 }
    environmental_data :=
      { iso5_particles := .finite 0, iso7_particles := .finite 0
        iso8_particles := .finite 0, temperature_avg := .finite 0
        humidity_avg := .finite 0 } }

/-- The yield entry lies in `[85, 100]` as a finite float. -/
def yieldInRange (y : PyFloat) : Prop :=
  ∃ q : ℚ, y = .finite q ∧ 85 ≤ q ∧ q ≤ 100

/-- The first entry produced by the first-copy production trend on the
fallback snapshot under the all-zero draw stream. -/
def e0 : TrendEntry := { day := "Day -6", batches := 2, yieldPct := .finite (933 / 10) }

/-- The trend the second-copy generator produces from `snapshot2zero`
under the all-zero draw stream: every batch count is 0. -/
def trendV2zero : List TrendEntry :=
  [ { day := "Day -6", batches := 0, yieldPct := .finite 85 }
  , { day := "Day -5", batches := 0, yieldPct := .finite 85 }
  , { day := "Day -4", batches := 0, yieldPct := .finite 85 }
  , { day := "Day -3", batches := 0, yieldPct := .finite 85 }
  , { day := "Day -2", batches := 0, yieldPct := .finite 85 }
  , { day := "Day -1", batches := 0, yieldPct := .finite 85 }
  , { day := "Today", batches := 0, yieldPct := .finite 85 } ]

/-- `max(85, min(100, x))` always lands on a finite value in `[85, 100]`,
whatever float (including nan and infinities) comes in. -/
theorem clampYield_mem (x : PyFloat) :
    yieldInRange (pyMax (.finite 85) (pyMin (.finite 100) x)) := by
  cases x with
  | finite q =>
    rcases lt_or_le q 100 with h | h
    · have hc : pyLt (.finite q) (.finite 100) = true := by simp [pyLt, h]
      rcases le_or_lt q 85 with h2 | h2
      · have hc2 : pyLt (.finite 85) (.finite q) = false := by
          simp [pyLt]; linarith
        refine ⟨85, ?_, le_refl _, by norm_num⟩
        simp [pyMin, pyMax, hc, hc2]
      · have hc2 : pyLt (.finite 85) (.finite q) = true := by simp [pyLt, h2]
        refine ⟨q, ?_, le_of_lt h2, le_of_lt h⟩
        simp [pyMin, pyMax, hc, hc2]
    · have hc : pyLt (.finite q) (.finite 100) = false := by
        simp [pyLt]; linarith
      have hc2 : pyLt (.finite 85) (.finite 100) = true := by
        simp [pyLt]; norm_num
      refine ⟨100, ?_, by norm_num, le_refl _⟩
      simp [pyMin, pyMax, hc, hc2]
  | inf =>
    have h1 : pyMin (.finite 100) PyFloat.inf = .finite 100 := rfl
    have h2 : pyLt (.finite 85) (.finite 100) = true := by
      simp [pyLt]; norm_num
    refine ⟨100, ?_, by norm_num, le_refl _⟩
    rw [h1]; simp [pyMax, h2]
  | negInf =>
    exact ⟨85, rfl, le_refl _, by norm_num⟩
  | nan =>
    have h1 : pyMin (.finite 100) PyFloat.nan = .finite 100 := rfl
    have h2 : pyLt (.finite 85) (.finite 100) = true := by
      simp [pyLt]; norm_num
    refine ⟨100, ?_, by norm_num, le_refl _⟩
    rw [h1]; simp [pyMax, h2]

/-- Every entry of the first-copy trend loop has its batch count floored
at 1 and its yield clamped into `[85, 100]`. -/
theorem prodTrendLoop_bounds (bd : ℤ) (bl : PyFloat) :
    ∀ (is : List ℕ) (r : RandomState) (e : TrendEntry),
      e ∈ (prodTrendLoop bd bl is r).1 → 1 ≤ e.batches ∧ yieldInRange e.yieldPct := by
  intro is
  induction is with
  | nil => intro r e h; simp [prodTrendLoop] at h
  | cons i is ih =>
    intro r e h
    simp only [prodTrendLoop] at h
    rcases List.mem_cons.mp h with rfl | hm
    · exact ⟨le_max_left _ _, clampYield_mem _⟩
    · exact ih _ e hm

/-- The deviation loop telescopes: with at least one iteration left, the
produced slots sum exactly to the incoming remainder and one slot is
produced per iteration. -/
theorem devTrendLoop_spec (total : ℤ) :
    (n : ℕ) → 1 ≤ n → ∀ (rem : ℤ) (r : RandomState),
      ((devTrendLoop total n rem r).1).sum = rem ∧
        ((devTrendLoop total n rem r).1).length = n
  | 1, _, rem, r => by simp [devTrendLoop]
  | n + 2, _, rem, r => by
    simp only [devTrendLoop]
    have ih := devTrendLoop_spec total (n + 1) (by omega)
      (rem - min rem (max 0 (ratTrunc (pyUniform 0 ((total : ℚ) / 3) r).1)))
      (pyUniform 0 ((total : ℚ) / 3) r).2
    rw [List.sum_cons, List.length_cons, ih.1, ih.2]
    constructor
    · ring
    · rfl

/-- Every entry of an `.ok` run of the second-copy trend loop has its
yield clamped into `[85, 100]`. -/
theorem prodTrendLoopV2_yield (bd bl : PyFloat) :
    ∀ (is : List ℕ) (r : RandomState) (t : List TrendEntry) (r1 : RandomState),
      prodTrendLoopV2 bd bl is r = .ok (t, r1) →
      ∀ e ∈ t, yieldInRange e.yieldPct := by
  intro is
  induction is with
  | nil =>
    intro r t r1 h e he
    simp only [prodTrendLoopV2, Except.ok.injEq, Prod.mk.injEq] at h
    rw [← h.1] at he
    simp at he
  | cons i is ih =>
    intro r t r1 h e he
    simp only [prodTrendLoopV2] at h
    cases hm : pyIntOfFloat (pyMul bd (.finite (4 / 5 + (pyRandom r).1 * (2 / 5)))) with
    | error err => rw [hm] at h; simp at h
    | ok db =>
      rw [hm] at h
      cases hrec : prodTrendLoopV2 bd bl is (pyUniform (-3) 3 (pyRandom r).2).2 with
      | error err => rw [hrec] at h; simp at h
      | ok rest =>
        rw [hrec] at h
        simp only [Except.ok.injEq, Prod.mk.injEq] at h
        rw [← h.1] at he
        rcases List.mem_cons.mp he with rfl | hmem
        · exact clampYield_mem _
        · exact ih _ rest.1 rest.2 (by rw [hrec]) e hmem

/-- `quality_status` never returns `critical`. -/
theorem one_le_quality_rank (v : PyFloat) : 1 ≤ statusRank (quality_status v) := by
  unfold quality_status
  split <;> simp [statusRank]

/-- Transitivity of the Python float order against the 95 cutpoint. -/
theorem pyLe95_trans {v w : PyFloat} (h1 : pyLe (.finite 95) v = true)
    (h2 : pyLe v w = true) : pyLe (.finite 95) w = true := by
  cases v <;> cases w <;> simp_all [pyLe] <;> linarith

set_option maxRecDepth 100000

/-- C1: for every raw row of correct length (one string cell per schema
field), `_map_columns_to_metrics` returns a complete normalized snapshot
(every field of every group carries a numeric value, by the type
`RawSnapshot`) and never lets an exception escape: the result is either
the field-wise mapping of the try-block or the complete fallback
structure supplied by the catch-all handler. -/
theorem C1_map_returns_complete_snapshot :
    ∀ row : List String, row.length = 23 →
      ∃ s : RawSnapshot, map_columns_to_metrics row = s ∧
        (map_columns_body row = .ok s ∨ s = fallback_structure) := by
  intro row _h
  cases h : map_columns_body row with
  | ok s => exact ⟨s, by simp [map_columns_to_metrics, h], .inl rfl⟩
  | error e => exact ⟨fallback_structure, by simp [map_columns_to_metrics, h], .inr rfl⟩

/-- Witness for C1 at the concrete 23-cell row of "1" cells. -/
theorem C1_witness :
    (List.replicate 23 "1").length = 23 ∧
      ∃ s : RawSnapshot, map_columns_to_metrics (List.replicate 23 "1") = s ∧
        (map_columns_body (List.replicate 23 "1") = .ok s ∨ s = fallback_structure) :=
  ⟨by decide, C1_map_returns_complete_snapshot (List.replicate 23 "1") (by decide)⟩

/-- C2 (failing input): the claim predicts that a cell that fails to
parse as the declared int leaves only that field at its default 0.  At
the row `["inf"]` the cell parses as an infinite float, `int()` raises
OverflowError, which `_safe_int` does not catch (`except (ValueError,
TypeError)`), so the whole mapping aborts to the fallback structure:
`total_batches` becomes 147, not the default 0, and every other field
takes its fallback value. -/
theorem C2_inf_cell_bug :
    map_columns_to_metrics ["inf"] = fallback_structure ∧
      (map_columns_body ["inf"]).toOption = none ∧
      fallback_structure.production.total_batches = 147 := by
  refine ⟨?_, ?_, ?_⟩ <;> with_unfolding_all decide

/-- C3: in count-distribution mode (`_generate_deviation_trend`), for
every nonnegative total and every draw sequence, the 7-slot deviation
series sums exactly to the total (the final slot takes the exact
remainder). -/
theorem C3_deviation_trend_sums_to_total :
    ∀ (gen : ℕ → ℕ → ℚ) (raw : RawSnapshot) (r0 : RandomState),
      0 ≤ raw.compliance.total_deviations →
      ((generate_deviation_trend gen raw r0).1).trend.sum
          = raw.compliance.total_deviations ∧
        ((generate_deviation_trend gen raw r0).1).trend.length = 7 := by
  intro gen raw r0 _h
  have h := devTrendLoop_spec raw.compliance.total_deviations 7 (by norm_num)
    raw.compliance.total_deviations (pySeed gen 42)
  simpa [generate_deviation_trend] using h

/-- Witness for C3: the fallback snapshot has total 8, matching the
concrete test `sum(expand_count_series(total=8, days=7)) == 8`. -/
theorem C3_witness :
    0 ≤ fallback_structure.compliance.total_deviations ∧
      ((generate_deviation_trend gen0 fallback_structure rs0).1).trend.sum
          = fallback_structure.compliance.total_deviations ∧
        ((generate_deviation_trend gen0 fallback_structure rs0).1).trend.length = 7 :=
  ⟨by decide, C3_deviation_trend_sums_to_total gen0 fallback_structure rs0 (by decide)⟩

/-- C4: trend synthesis is deterministic: `_generate_production_trend`
reseeds the global generator with the constant 42, so two calls with the
same snapshot (and the same underlying generator family) return
identical sequences whatever the incoming generator state. -/
theorem C4_production_trend_deterministic :
    ∀ (gen : ℕ → ℕ → ℚ) (raw : RawSnapshot) (r1 r2 : RandomState),
      (generate_production_trend gen raw r1).1
        = (generate_production_trend gen raw r2).1 := by
  intro gen raw r1 r2
  rfl

/-- C5 (counterexample): a successful fetch (serving compliance score
84 computed from the fallback snapshot served as live data) followed by
a failed fetch does NOT return the previously served snapshot marked
as cached: the second read is the fixed fallback dashboard (compliance
score 94.3), so the prior data is not preserved and no cache exists. -/
theorem C5_counterexample :
    ((get_dashboard_data gen0 (some fallback_structure) rs0).1).kpis.compliance_score.value
        = .finite 84 ∧
      (get_dashboard_data gen0 none
          ((get_dashboard_data gen0 (some fallback_structure) rs0).2)).1
        = fallback_dashboard_data ∧
      fallback_dashboard_data.kpis.compliance_score.value = .finite (943 / 10) ∧
      PyFloat.finite 84 ≠ PyFloat.finite (943 / 10) := by
  refine ⟨by with_unfolding_all decide, rfl, rfl, by with_unfolding_all decide⟩

/-- C5 (amended): the connector keeps no cache; a read whose fetch fails
returns the fixed fallback dashboard regardless of any earlier
successful reads, and no exception is thrown (the read is total). -/
theorem C5_failed_fetch_serves_fallback :
    ∀ (gen : ℕ → ℕ → ℚ) (prior : List (Option RawSnapshot)) (r0 : RandomState),
      ∃ ds : List Dashboard,
        runReads gen (prior ++ [none]) r0 = ds ++ [fallback_dashboard_data] := by
  intro gen prior
  induction prior with
  | nil =>
    intro r0
    exact ⟨[], by simp [runReads, get_dashboard_data]⟩
  | cons f fs ih =>
    intro r0
    obtain ⟨ds, hds⟩ := ih (get_dashboard_data gen f r0).2
    exact ⟨(get_dashboard_data gen f r0).1 :: ds, by
      simp only [List.cons_append, runReads]
      exact congrArg (List.cons (get_dashboard_data gen f r0).1) hds⟩

/-- C6: status classification is monotonic in the configured direction:
the pass-rate status (higher is better) never degrades as the value
grows, and the deviation, low-stock and compliance-score statuses (lower
is better) never improve as the value grows. -/
theorem C6_classification_monotone :
    (∀ v w : PyFloat, pyLe v w = true →
        statusRank (quality_status v) ≤ statusRank (quality_status w)) ∧
      (∀ d e : ℤ, d ≤ e →
        statusRank (deviation_status e) ≤ statusRank (deviation_status d)) ∧
      (∀ d e : ℤ, d ≤ e →
        statusRank (inventory_status e) ≤ statusRank (inventory_status d)) ∧
      (∀ d e : ℤ, d ≤ e →
        statusRank (compliance_score_status e) ≤ statusRank (compliance_score_status d)) := by
  refine ⟨?_, ?_, ?_, ?_⟩
  · intro v w h
    by_cases h95 : pyLe (.finite 95) v = true
    · have h95w := pyLe95_trans h95 h
      simp [quality_status, h95, h95w]
    · have h1 := one_le_quality_rank w
      have hv : quality_status v = .warning := by simp [quality_status, h95]
      rw [hv]
      simpa [statusRank] using h1
  · intro d e h
    unfold deviation_status
    split_ifs <;> simp only [statusRank] <;> omega
  · intro d e h
    unfold inventory_status
    split_ifs <;> simp only [statusRank] <;> omega
  · intro d e h
    unfold compliance_score_status
    split_ifs <;> simp only [statusRank] <;> omega

/-- Witness for C6 at concrete value pairs in each direction. -/
theorem C6_witness :
    statusRank (quality_status (.finite 90)) ≤ statusRank (quality_status (.finite 97)) ∧
      statusRank (deviation_status 5) ≤ statusRank (deviation_status 1) ∧
      statusRank (inventory_status 12) ≤ statusRank (inventory_status 3) ∧
      statusRank (compliance_score_status 5) ≤ statusRank (compliance_score_status 2) :=
  ⟨C6_classification_monotone.1 (.finite 90) (.finite 97) (by with_unfolding_all decide),
   C6_classification_monotone.2.1 1 5 (by decide),
   C6_classification_monotone.2.2.1 3 12 (by decide),
   C6_classification_monotone.2.2.2 2 5 (by decide)⟩

/-- C7 (counterexample): the mapping returns only the snapshot, no
defaulted-field count: the empty row (all 23 fields defaulted) and the
all-"0" row (0 fields defaulted) produce identical return values, so no
count is returned alongside the snapshot. -/
theorem C7_counterexample :
    map_columns_to_metrics [] = map_columns_to_metrics (List.replicate 23 "0") ∧
      specDefaultedFieldCount [] = 23 ∧
      specDefaultedFieldCount (List.replicate 23 "0") = 0 := by
  refine ⟨?_, ?_, ?_⟩ <;> with_unfolding_all decide

/-- C7 (amended): `_map_columns_to_metrics` returns only the normalized
snapshot; parse failures are defaulted silently and no count of
defaulted fields is computed or returned — rows with different
defaulted-field counts can yield the same output. -/
theorem C7_snapshot_only_no_count :
    ∃ r1 r2 : List String,
      specDefaultedFieldCount r1 ≠ specDefaultedFieldCount r2 ∧
        map_columns_to_metrics r1 = map_columns_to_metrics r2 :=
  ⟨[], List.replicate 23 "0", by with_unfolding_all decide, by with_unfolding_all decide⟩

/-- C8: the spec-modelled compliance percentage
`clamp(100 - p/L*100, 0, 100)` always lies in `[0, 100]`; it is 100 at
p = 0, 0 at p = L, and 0 (clamped, not negative) at p = 2L. -/
theorem C8_compliancePercent_clamped :
    ∀ (p L : ℚ), 0 ≤ p → 0 < L →
      0 ≤ compliancePercent p L ∧ compliancePercent p L ≤ 100 ∧
        compliancePercent 0 L = 100 ∧ compliancePercent L L = 0 ∧
        compliancePercent (2 * L) L = 0 := by
  intro p L _hp hL
  refine ⟨le_max_left _ _, max_le (by norm_num) (min_le_left _ _), ?_, ?_, ?_⟩
  · show max 0 (min 100 (100 - 0 / L * 100)) = 100
    rw [zero_div, zero_mul, sub_zero, min_self]
    exact max_eq_right (by norm_num)
  · show max 0 (min 100 (100 - L / L * 100)) = 0
    rw [div_self (ne_of_gt hL), one_mul, sub_self]
    rw [min_eq_right (by norm_num : (0 : ℚ) ≤ 100)]
    exact max_self 0
  · show max 0 (min 100 (100 - 2 * L / L * 100)) = 0
    rw [mul_div_assoc, div_self (ne_of_gt hL), mul_one]
    have h1 : (100 : ℚ) - 2 * 100 = -100 := by norm_num
    rw [h1, min_eq_right (by norm_num : (-100 : ℚ) ≤ 100),
      max_eq_left (by norm_num : (-100 : ℚ) ≤ 0)]

/-- Witness for C8 at p = 3, L = 4. -/
theorem C8_witness :
    0 ≤ compliancePercent 3 4 ∧ compliancePercent 3 4 ≤ 100 ∧
      compliancePercent 0 4 = 100 ∧ compliancePercent 4 4 = 0 ∧
      compliancePercent (2 * 4) 4 = 0 :=
  C8_compliancePercent_clamped 3 4 (by with_unfolding_all decide)
    (by with_unfolding_all decide)

/-- C9: the concrete row `["147","132","15","96.3"]` maps to production
values total 147, completed 132, pending 15, yield 96.3 (the remaining
schema fields, absent from the claim, default per `_safe_int` and
`_safe_float`). -/
theorem C9_concrete_production_row :
    (map_columns_to_metrics ["147", "132", "15", "96.3"]).production.total_batches = 147 ∧
      (map_columns_to_metrics ["147", "132", "15", "96.3"]).production.completed_batches = 132 ∧
      (map_columns_to_metrics ["147", "132", "15", "96.3"]).production.pending_batches = 15 ∧
      (map_columns_to_metrics ["147", "132", "15", "96.3"]).production.average_yield
          = .finite (963 / 10) := by
  refine ⟨?_, ?_, ?_, ?_⟩ <;> with_unfolding_all decide

/-- C10 (amended): every synthesized yield is clamped into `[85, 100]`
in both class definitions; the batch floor `batches >= 1` holds in the
first definition (`max(1, ...)`), while the second (shadowing)
definition applies no floor. -/
theorem C10_trend_bounds_amended :
    (∀ (gen : ℕ → ℕ → ℚ) (raw : RawSnapshot) (r0 : RandomState) (e : TrendEntry),
        e ∈ (generate_production_trend gen raw r0).1 →
        1 ≤ e.batches ∧ yieldInRange e.yieldPct) ∧
      (∀ (gen : ℕ → ℕ → ℚ) (raw : RawSnapshotV2) (r0 : RandomState) (t : List TrendEntry),
        (generate_production_trend_v2 gen raw r0).toOption.map Prod.fst = some t →
        ∀ e ∈ t, yieldInRange e.yieldPct) := by
  constructor
  · intro gen raw r0 e he
    simp only [generate_production_trend] at he
    exact prodTrendLoop_bounds _ _ _ _ e he
  · intro gen raw r0 t h
    cases hg : generate_production_trend_v2 gen raw r0 with
    | error err => rw [hg] at h; simp [Except.toOption] at h
    | ok p =>
      rw [hg] at h
      obtain rfl : p.1 = t := by simpa [Except.toOption] using h
      exact prodTrendLoopV2_yield _ _ _ _ p.1 p.2
        (by simpa [generate_production_trend_v2] using hg)

/-- C10 (counterexample): under the all-zero draw stream and a snapshot
with `daily_production = 0`, the second-copy generator produces seven
entries whose batch counts are all 0, violating `batches >= 1`. -/
theorem C10_counterexample :
    (generate_production_trend_v2 gen0 snapshot2zero rs0).toOption.map
        (fun p => p.1.map TrendEntry.batches) = some [0, 0, 0, 0, 0, 0, 0] ∧
      ¬ (1 ≤ (0 : ℤ)) := by
  refine ⟨by with_unfolding_all decide, by decide⟩

/-- Witness for C10 at a concrete entry of each generator. -/
theorem C10_witness :
    (1 ≤ e0.batches ∧ yieldInRange e0.yieldPct) ∧
      yieldInRange (TrendEntry.yieldPct
        { day := "Today", batches := 0, yieldPct := .finite 85 }) :=
  ⟨C10_trend_bounds_amended.1 gen0 fallback_structure rs0 e0 (by with_unfolding_all decide),
   C10_trend_bounds_amended.2 gen0 snapshot2zero rs0 trendV2zero (by with_unfolding_all decide)
     { day := "Today", batches := 0, yieldPct := .finite 85 } (by with_unfolding_all decide)⟩
